import Mathlib

set_option maxRecDepth 100000

/-!
# Verification of the `BrowserSession` component of Roo-Cline

Shallow embedding of `src/services/browser/BrowserSession.ts` (the browser
automation session controller).  Interactions with the outside world
(puppeteer's browser process, the page, the network, the screenshot encoder)
are modelled by explicit oracle records that fix the outcome of each external
call; the definitions below reproduce the control flow of the TypeScript
source on top of those oracles.  Side effects on the underlying browser and
page objects are recorded as explicit event/operation traces so that theorems
can speak about which calls were issued and in which order.
-/

namespace BrowserSession

/-- Decidable equality for `Except`, used so that concrete runs of the model
can be checked by `decide`. -/
instance {ε α : Type} [DecidableEq ε] [DecidableEq α] : DecidableEq (Except ε α) := fun a b =>
  match a, b with
  | .ok x, .ok y => if h : x = y then .isTrue (by rw [h]) else .isFalse (by simp [h])
  | .error x, .error y => if h : x = y then .isTrue (by rw [h]) else .isFalse (by simp [h])
  | .ok _, .error _ => .isFalse (by simp)
  | .error _, .ok _ => .isFalse (by simp)

/-! ## JavaScript errors and the action-result record -/

/-- A thrown JavaScript error.  The source distinguishes puppeteer's
`TimeoutError` (`err instanceof TimeoutError`) from every other error. -/
inductive JsError where
  | timeout (message : String)
  | error (message : String)
  deriving DecidableEq

/-- `err instanceof TimeoutError` in `doAction`. -/
def JsError.isTimeoutError : JsError → Bool
  | .timeout _ => true
  | .error _ => false

/-- `error.message`, as read by the `catch` block of `launchBrowser`. -/
def JsError.message : JsError → String
  | .timeout m => m
  | .error m => m

/-- `err.toString()`, as interpolated into log lines by `doAction`. -/
def JsError.toJsString : JsError → String
  | .timeout m => "TimeoutError: " ++ m
  | .error m => "Error: " ++ m

/-- The `BrowserActionResult` record from `shared/ExtensionMessage`; all
fields are optional and `return {}` leaves them all absent. -/
structure BrowserActionResult where
  screenshot : Option String := none
  logs : Option String := none
  currentUrl : Option String := none
  currentMousePosition : Option String := none
  deriving DecidableEq

/-! ## The session state

`BrowserSession` holds `browser?: Browser`, `page?: Page`,
`currentMousePosition?: string`, `isInteractive: boolean = false` and
`browserPort: string = '7333'`.  A `Browser` is abstracted to the way it was
obtained (puppeteer `launch` vs `connect`); a `Page` to its current URL. -/

/-- How the browser handle held in `this.browser` was obtained. -/
inductive BrowserKind where
  | launched
  | connected
  deriving DecidableEq

/-- The `Browser` object held in `this.browser`. -/
structure BrowserHandle where
  kind : BrowserKind
  deriving DecidableEq

/-- The `Page` object held in `this.page`. -/
structure PageHandle where
  url : String
  deriving DecidableEq

/-- The mutable fields of the `BrowserSession` class, with the field
initializers of the source. -/
structure Session where
  browser : Option BrowserHandle := none
  page : Option PageHandle := none
  currentMousePosition : Option String := none
  isInteractive : Bool := false
  browserPort : String := "7333"
  deriving DecidableEq

/-- A freshly constructed `BrowserSession` (only `context` is set by the
constructor; every modelled field keeps its initializer). -/
def Session.init : Session := {}

/-- `await this.browser?.newPage()`: a fresh page, on `about:blank`. -/
def newPage : PageHandle := ⟨"about:blank"⟩

/-! ## Traces

Calls issued to the underlying browser object (for the lifecycle methods) and
to the page object (inside `doAction` and the per-action effects) are recorded
in order. -/

/-- Calls issued to the browser / the debugging endpoint by the lifecycle
methods. -/
inductive BrowserEvent where
  | disconnectCalled
  | closeCalled
  | fetchVersion (port : String)
  | connected (wsEndpoint : String)
  | launchedProcess
  deriving DecidableEq

/-- The two screenshot formats tried by `getCurrentScreenshot`. -/
inductive ShotType where
  | webp
  | png
  deriving DecidableEq

/-- A JavaScript number as produced by `Number(...)` here: either `NaN` or an
integer (the component never produces a non-integral finite number from the
inputs claimed about; see `jsNumber`). -/
inductive JsNum where
  | nan
  | int (n : Int)
  deriving DecidableEq

/-- An argument position after array destructuring: `undefined` when the split
produced fewer parts than destructured, otherwise a number. -/
inductive JsArg where
  | undef
  | num (v : JsNum)
  deriving DecidableEq

/-- Calls issued to the page object. -/
inductive PageOp where
  | onConsole
  | onPageError
  | offConsole
  | offPageError
  | onRequest
  | offRequest
  | mouseClick (x y : JsArg)
  | keyboardType (text : String)
  | scrollBy (top : Int)
  | goto (url : String)
  | waitForNavigation
  | screenshotAttempt (t : ShotType)
  deriving DecidableEq

/-! ## `waitTillHTMLStable`

The stabilization heuristic polls `page.content()` every 500 ms, up to
`timeout / 500` checks (`while (checkCounts++ <= maxChecks)`), and breaks out
("Page rendered fully") once the counter of consecutive non-zero, unchanged
content lengths reaches `minStableSizeIterations = 3`.  The successive values
of `html.length` are supplied as a list (the simulated content source sampled
at each poll); the function returns whether the loop broke out via the
stability counter before the checks or the samples ran out. -/

/-- The polling loop of `waitTillHTMLStable`: remaining checks, then
`lastHTMLSize`, then `countStableSizeIterations`, then the samples still to be
polled. -/
def stableLoop : Nat → Nat → Nat → List Nat → Bool
  | 0, _, _, _ => false
  | _ + 1, _, _, [] => false
  | fuel + 1, lastHTMLSize, countStableSizeIterations, currentHTMLSize :: rest =>
    let countStableSizeIterations' :=
      if lastHTMLSize ≠ 0 ∧ currentHTMLSize = lastHTMLSize
      then countStableSizeIterations + 1
      else 0
    if 3 ≤ countStableSizeIterations' then true
    else stableLoop fuel currentHTMLSize countStableSizeIterations' rest

/-- `waitTillHTMLStable(page, timeout)` with the polled content lengths given
by `polls`; `true` iff the loop declared stability. -/
def waitTillHTMLStable (timeout : Nat) (polls : List Nat) : Bool :=
  stableLoop (timeout / 500) 0 0 polls

/-! ## Coordinate parsing in `click`

`click` runs `coordinate.split(",").map(Number)` and destructures the first
two elements.  `split` and `Number` are re-implemented over character lists
(the string functions of the standard library do not reduce well inside the
kernel). -/

/-- JavaScript `s.split(",")`: always at least one part, empty parts kept. -/
def splitCommaAux : List Char → List Char → List (List Char)
  | [], acc => [acc.reverse]
  | c :: rest, acc =>
    if c = ',' then acc.reverse :: splitCommaAux rest [] else splitCommaAux rest (c :: acc)

/-- JavaScript `coordinate.split(",")` on the characters of the string. -/
def jsSplitComma (s : String) : List (List Char) := splitCommaAux s.toList []

/-- Whitespace stripped by JavaScript number conversion. -/
def jsSpace (c : Char) : Bool := c = ' ' ∨ c = '\t' ∨ c = '\n' ∨ c = '\r'

/-- The value of a non-empty all-digit character list. -/
def digitsVal : List Char → Option Nat
  | [] => none
  | l => l.foldl (fun acc c => match acc with
      | none => none
      | some n => if c.isDigit then some (n * 10 + (c.toNat - 48)) else none) (some 0)

/-- JavaScript `Number(part)` restricted to the inputs this component is
claimed about: surrounding whitespace is stripped, the empty string converts
to `0`, an optionally signed decimal integer converts to its value, and
everything else is treated as `NaN`.  (Genuine `Number` also accepts
fractional and exponent forms; no control flow of the source depends on the
numeric value, so collapsing those to `NaN` is immaterial here.) -/
def jsNumber (part : List Char) : JsNum :=
  let t := (part.dropWhile jsSpace).reverse.dropWhile jsSpace |>.reverse
  match t with
  | [] => .int 0
  | '-' :: rest =>
    match digitsVal rest with
    | some n => .int (-(n : Int))
    | none => .nan
  | '+' :: rest =>
    match digitsVal rest with
    | some n => .int (n : Int)
    | none => .nan
  | l =>
    match digitsVal l with
    | some n => .int (n : Int)
    | none => .nan

/-- `const [x, y] = coordinate.split(",").map(Number)` of `click`. -/
def parseClickArgs (coordinate : String) : JsArg × JsArg :=
  let parts := (jsSplitComma coordinate).map jsNumber
  (match parts.head? with
   | some v => .num v
   | none => .undef,
   match parts[1]? with
   | some v => .num v
   | none => .undef)

/-! ## `getCurrentScreenshot` -/

/-- Outcomes of the two `page.screenshot` calls: `.ok b` resolves with the
base64 payload `b`, `.error m` rejects. -/
structure ScreenshotOracle where
  webp : Except String String
  png : Except String String
  deriving DecidableEq

/-- `getCurrentScreenshot`: try `type: "webp"` first and fall back to
`type: "png"`; `undefined` when both reject (or when there is no page).  Also
returns the formats that were attempted, in order. -/
def getCurrentScreenshot (page : Option PageHandle) (o : ScreenshotOracle) :
    Option String × List ShotType :=
  match page with
  | none => (none, [])
  | some _ =>
    match o.webp with
    | .ok b => (some ("data:image/webp;base64," ++ b), [.webp])
    | .error _ =>
      match o.png with
      | .ok b => (some ("data:image/png;base64," ++ b), [.webp, .png])
      | .error _ => (none, [.webp, .png])

/-! ## `closeBrowser` -/

/-- Result of a lifecycle method: the session fields after the call, the
value returned (or error thrown) to the caller, and the calls issued to the
browser. -/
structure LifecycleOut where
  session : Session
  result : Except JsError BrowserActionResult
  events : List BrowserEvent
  deriving DecidableEq

/-- `closeBrowser()`: in interactive mode `await this.browser?.disconnect()
.catch(() => {})`, otherwise `await this.browser?.close().catch(() => {})`,
then `return {}`.  The rejection of the underlying call (`underlyingFails`)
is swallowed by the `.catch`; none of the session fields is assigned. -/
def closeBrowser (s : Session) (underlyingFails : Bool) : LifecycleOut :=
  ⟨s, .ok {},
    match s.browser with
    | some _ => [if s.isInteractive then .disconnectCalled else .closeCalled]
    | none => []⟩

/-! ## `launchBrowser` -/

/-- Outcomes of the external calls of `launchBrowser`:
* `fetchResult = .error m`: the `fetch` of `/json/version` (or its JSON
  decoding) rejected with an error whose message is `m`;
* `fetchResult = .ok none`: the metadata document lacks
  `webSocketDebuggerUrl`;
* `fetchResult = .ok (some ws)`: the document carries the endpoint `ws`;
* `connectError = some m`: puppeteer `connect` rejected with message `m`;
* `closeUnderlyingFails`: whether the underlying call of the implicit
  `closeBrowser` rejects (swallowed there).
The non-interactive `launch(...)` and the final `newPage()` are assumed to
resolve. -/
structure LaunchOracle where
  fetchResult : Except String (Option String)
  connectError : Option String
  closeUnderlyingFails : Bool
  deriving DecidableEq

/-- The message of the error thrown when the metadata document lacks
`webSocketDebuggerUrl`. -/
def missingWsEndpointMsg (port : String) : String :=
  "BrowserSession.ts :: launchBrowser :: Could not get webSocketDebuggerUrl from Chrome debugging API, port: "
    ++ port

/-- The message of the error re-thrown by the `catch` block of the
interactive branch; `inner` is `error.message` and the remediation text
hard-codes port 7333. -/
def connectFailedMsg (inner : String) : String :=
  "BrowserSession.ts :: launchBrowser :: Failed to connect to browser: " ++ inner
    ++ ", make sure you have a running browser with --remote-debugging-port=7333"

/-- `launchBrowser(interactive, port?)`.  In order: `this.isInteractive`
is overwritten with the new `interactive`; `this.browserPort` is overwritten
when a truthy `port` is supplied; if `this.browser` is set, `closeBrowser()`
runs (with the fields already overwritten); then either the debugging
endpoint is fetched and connected to (interactive) or a fresh process is
launched, `this.page` is replaced by a new page, and the launch result record
is returned. -/
def launchBrowser (s : Session) (interactive : Bool) (port : Option String)
    (o : LaunchOracle) : LifecycleOut :=
  let s1 : Session := { s with isInteractive := interactive }
  let s2 : Session :=
    match port with
    | some p => if p ≠ "" then { s1 with browserPort := p } else s1
    | none => s1
  let closeEvents :=
    match s2.browser with
    | some _ => (closeBrowser s2 o.closeUnderlyingFails).events
    | none => []
  if s2.isInteractive then
    let events := closeEvents ++ [.fetchVersion s2.browserPort]
    match o.fetchResult with
    | .error m => ⟨s2, .error (.error (connectFailedMsg m)), events⟩
    | .ok none =>
        ⟨s2, .error (.error (connectFailedMsg (missingWsEndpointMsg s2.browserPort))), events⟩
    | .ok (some ws) =>
      match o.connectError with
      | some m => ⟨s2, .error (.error (connectFailedMsg m)), events⟩
      | none =>
        let s3 : Session := { s2 with browser := some ⟨.connected⟩, page := some newPage }
        ⟨s3,
          .ok { screenshot := some "",
                logs := some "Connected to browser in remote debugging mode.",
                currentUrl := some newPage.url,
                currentMousePosition := s3.currentMousePosition },
          events ++ [.connected ws]⟩
  else
    let s3 : Session := { s2 with browser := some ⟨.launched⟩, page := some newPage }
    ⟨s3,
      .ok { screenshot := some "",
            logs := some "Browser launched successfully.",
            currentUrl := some newPage.url,
            currentMousePosition := s3.currentMousePosition },
      closeEvents ++ [.launchedProcess]⟩

/-! ## `doAction`

The shared inner routine: throw when `this.page` is unset; register transient
`console` and `pageerror` listeners; run the action's effect, demoting every
non-`TimeoutError` to an `"[Error] ..."` log line; wait (bounded, failure
swallowed) for console quiescence; capture a screenshot, throwing
`"Failed to take screenshot."` when it is `undefined` — this throw happens
*before* the `page.off` calls; otherwise remove the listeners and return the
result record. -/

/-- A console or page-error event delivered while the listeners are
attached. -/
inductive PageEvent where
  | console (type text : String)
  | pageError (message : String)
  deriving DecidableEq

/-- The log line appended for one delivered event (`consoleListener` /
`errorListener`). -/
def formatPageEvent : PageEvent → String
  | .console ty text => if ty = "log" then text else "[" ++ ty ++ "] " ++ text
  | .pageError m => "[Page Error] " ++ m

/-- External outcomes of one `doAction` call: the events delivered to the
transient listeners, and the screenshot outcomes.  (The `pWaitFor` console
quiescence poll is bounded by its 3 s timeout and its rejection is swallowed,
so it contributes nothing observable.) -/
structure DoActionOracle where
  events : List PageEvent
  shot : ScreenshotOracle
  deriving DecidableEq

/-- What running an action's browser-side effect does: the session fields
after it (the effects mutate `this.currentMousePosition`), the page after it,
the error it threw if any, and the page calls it issued. -/
structure EffectOut where
  session : Session
  page : PageHandle
  thrown : Option JsError
  trace : List PageOp
  deriving DecidableEq

/-- An action's browser-side effect, as passed to `doAction`. -/
abbrev Effect : Type := Session → PageHandle → EffectOut

/-- The error message thrown by `doAction` when `this.page` is unset. -/
def noActivePageMsg : String :=
  "Browser is not launched or connected. This may occur if the browser was automatically closed by a non-`browser_action` tool."

/-- The error message thrown when both screenshot formats failed. -/
def screenshotFailedMsg : String := "Failed to take screenshot."

/-- Result of one `doAction` call: session fields after it, the returned
record or thrown error, and the calls issued to the page. -/
structure ActionOut where
  session : Session
  result : Except JsError BrowserActionResult
  trace : List PageOp
  deriving DecidableEq

/-- `doAction(action)`. -/
def doAction (s : Session) (o : DoActionOracle) (effect : Effect) : ActionOut :=
  match s.page with
  | none => ⟨s, .error (.error noActivePageMsg), []⟩
  | some page =>
    let eo := effect s page
    let logs :=
      o.events.map formatPageEvent ++
        match eo.thrown with
        | some e => if e.isTimeoutError then [] else ["[Error] " ++ e.toJsString]
        | none => []
    let s1 : Session := { eo.session with page := some eo.page }
    match getCurrentScreenshot (some eo.page) o.shot with
    | (none, attempts) =>
        ⟨s1, .error (.error screenshotFailedMsg),
          [.onConsole, .onPageError] ++ eo.trace ++ attempts.map PageOp.screenshotAttempt⟩
    | (some shot, attempts) =>
        ⟨s1,
          .ok { screenshot := some shot,
                logs := some (String.intercalate "\n" logs),
                currentUrl := some eo.page.url,
                currentMousePosition := eo.session.currentMousePosition },
          [.onConsole, .onPageError] ++ eo.trace ++ attempts.map PageOp.screenshotAttempt
            ++ [.offConsole, .offPageError]⟩

/-! ## The actions -/

/-- External outcomes of `navigateToUrl`: whether `page.goto` rejected (a
`TimeoutError` on a slow page), and the content lengths polled by the
stabilization wait. -/
structure NavigateOracle where
  gotoError : Option JsError
  contentSizes : List Nat
  action : DoActionOracle
  deriving DecidableEq

/-- `navigateToUrl(url)`: `page.goto(url, ...)` then `waitTillHTMLStable`
(whose outcome has no observable effect beyond the polling itself). -/
def navigateToUrl (s : Session) (url : String) (o : NavigateOracle) : ActionOut :=
  doAction s o.action fun s0 page =>
    match o.gotoError with
    | some e => ⟨s0, page, some e, [.goto url]⟩
    | none =>
      let _stable := waitTillHTMLStable 5000 o.contentSizes
      ⟨s0, { page with url := url }, none, [.goto url]⟩

/-- External outcomes of `click`: whether `page.mouse.click` rejected,
whether the request listener observed network activity in the 100 ms window,
and the content lengths polled by the stabilization wait. -/
structure ClickOracle where
  mouseClickError : Option String
  hasNetworkActivity : Bool
  contentSizes : List Nat
  action : DoActionOracle
  deriving DecidableEq

/-- `click(coordinate)`: parse the coordinate (no validation), then inside
`doAction`: register a request listener, dispatch `page.mouse.click(x, y)`,
set `this.currentMousePosition = coordinate`, wait 100 ms, on observed
network activity `waitForNavigation` (rejection swallowed) plus the
stabilization wait, and remove the request listener.  When the mouse
dispatch rejects, the error propagates out of the effect before the
position update (and before the listener removal). -/
def click (s : Session) (coordinate : String) (o : ClickOracle) : ActionOut :=
  let (x, y) := parseClickArgs coordinate
  doAction s o.action fun s0 page =>
    match o.mouseClickError with
    | some m => ⟨s0, page, some (.error m), [.onRequest, .mouseClick x y]⟩
    | none =>
      let s1 : Session := { s0 with currentMousePosition := some coordinate }
      if o.hasNetworkActivity then
        let _stable := waitTillHTMLStable 5000 o.contentSizes
        ⟨s1, page, none, [.onRequest, .mouseClick x y, .waitForNavigation, .offRequest]⟩
      else
        ⟨s1, page, none, [.onRequest, .mouseClick x y, .offRequest]⟩

/-- `type(text)`: `page.keyboard.type(text)` (assumed to resolve). -/
def type (s : Session) (text : String) (o : DoActionOracle) : ActionOut :=
  doAction s o fun s0 page => ⟨s0, page, none, [.keyboardType text]⟩

/-- `scrollDown()`: `window.scrollBy({ top: 600 })` plus a 300 ms delay. -/
def scrollDown (s : Session) (o : DoActionOracle) : ActionOut :=
  doAction s o fun s0 page => ⟨s0, page, none, [.scrollBy 600]⟩

/-- `scrollUp()`: `window.scrollBy({ top: -600 })` plus a 300 ms delay. -/
def scrollUp (s : Session) (o : DoActionOracle) : ActionOut :=
  doAction s o fun s0 page => ⟨s0, page, none, [.scrollBy (-600)]⟩

/-! ## Launch-call sequences (for the sticky-port claim) -/

/-- A sequence of `launchBrowser` calls (mode, optional port, oracle), run
left to right. -/
def runLaunches (s : Session) : List (Bool × Option String × LaunchOracle) → Session
  | [] => s
  | c :: rest => runLaunches (launchBrowser s c.1 c.2.1 c.2.2).session rest

/-- The port a call supplies, if any: `if (port)` treats the empty string as
not supplied. -/
def suppliedPort : Option String → Option String
  | some p => if p ≠ "" then some p else none
  | none => none

/-- The port supplied by the most recent call of the sequence that supplied
one. -/
def lastSuppliedPort : List (Bool × Option String × LaunchOracle) → Option String
  | [] => none
  | c :: rest =>
    match lastSuppliedPort rest with
    | some q => some q
    | none => suppliedPort c.2.1

/-! ## Concrete scenarios used by the claim theorems -/

/-- Oracle for a successful non-interactive launch (the fetch fields are not
consulted in that mode). -/
def okProcessOracle : LaunchOracle := ⟨.ok none, none, false⟩

/-- Oracle for a successful interactive attach. -/
def okAttachOracle : LaunchOracle :=
  ⟨.ok (some "ws://127.0.0.1:9222/devtools/browser/abc"), none, false⟩

/-- Oracle for an interactive launch whose metadata fetch rejects. -/
def fetchFailOracle : LaunchOracle := ⟨.error "fetch failed", none, false⟩

/-- Oracle for an interactive launch whose metadata document omits
`webSocketDebuggerUrl`. -/
def omitsWsOracle : LaunchOracle := ⟨.ok none, none, false⟩

/-- A session holding a previously launched (non-interactive, owned) browser
process. -/
def launchedSession : Session :=
  (launchBrowser Session.init false none okProcessOracle).session

/-- Screenshot oracle where both formats resolve. -/
def okShotOracle : ScreenshotOracle := ⟨.ok "B64WEBP", .ok "B64PNG"⟩

/-- Action oracle with no delivered events and succeeding screenshots. -/
def quietOkOracle : DoActionOracle := ⟨[], okShotOracle⟩

/-- Action oracle where both screenshot formats reject. -/
def failShotOracle : DoActionOracle := ⟨[], ⟨.error "boom", .error "bust"⟩⟩

/-- Click oracle where every external call resolves and the click triggers
no network activity. -/
def plainClickOracle : ClickOracle := ⟨none, false, [], quietOkOracle⟩

/-- Click oracle whose pointer dispatch rejects. -/
def failMouseOracle : ClickOracle :=
  ⟨some "Protocol error (Input.dispatchMouseEvent): Target closed.", false, [], quietOkOracle⟩

/-- Click oracle for a page whose underlying browser has been closed: the
pointer dispatch and both screenshot captures reject. -/
def deadPageClickOracle : ClickOracle :=
  ⟨some "Protocol error (Input.dispatchMouseEvent): Session closed.", false, [],
    ⟨[], ⟨.error "Protocol error", .error "Protocol error"⟩⟩⟩

/-! ## Claim C1: the stabilization helper

Helper lemmas: one unfolding step of the polling loop; declaring stability is
equivalent (within the check budget) to the polled sequence containing four
consecutive equal non-zero lengths — i.e. three consecutive polls whose
non-zero length is unchanged from their previous poll, which is what drives
the counter to 3. -/

/-- One iteration of the `while` loop of `waitTillHTMLStable`. -/
theorem stableLoop_cons (fuel lastSize count c : Nat) (rest : List Nat) :
    stableLoop (fuel + 1) lastSize count (c :: rest) =
      if 3 ≤ (if lastSize ≠ 0 ∧ c = lastSize then count + 1 else 0) then true
      else stableLoop fuel c (if lastSize ≠ 0 ∧ c = lastSize then count + 1 else 0) rest := rfl

/-- From a state whose `lastHTMLSize` already equals the non-zero length `v`,
three further polls of `v` drive the counter to 3. -/
theorem stableLoop_three : ∀ (f c v : Nat), v ≠ 0 → 3 ≤ f →
    stableLoop f v c [v, v, v] = true := by
  intro f c v hv hf
  obtain ⟨k, rfl⟩ : ∃ k, f = k + 3 := ⟨f - 3, by omega⟩
  rw [show k + 3 = k + 2 + 1 from rfl, stableLoop_cons, if_pos (⟨hv, rfl⟩ : v ≠ 0 ∧ v = v)]
  by_cases h1 : 3 ≤ c + 1
  · rw [if_pos h1]
  · rw [if_neg h1, show k + 2 = k + 1 + 1 from rfl, stableLoop_cons,
      if_pos (⟨hv, rfl⟩ : v ≠ 0 ∧ v = v)]
    by_cases h2 : 3 ≤ c + 1 + 1
    · rw [if_pos h2]
    · rw [if_neg h2, stableLoop_cons, if_pos (⟨hv, rfl⟩ : v ≠ 0 ∧ v = v),
        if_pos (by omega : 3 ≤ c + 1 + 1 + 1)]

/-- From any loop state, four consecutive polls of the same non-zero length
drive the counter to 3. -/
theorem stableLoop_vvvv (fuel lastSize count v : Nat) (hv : v ≠ 0) (hf : 4 ≤ fuel) :
    stableLoop fuel lastSize count [v, v, v, v] = true := by
  obtain ⟨f, rfl⟩ : ∃ f, fuel = f + 4 := ⟨fuel - 4, by omega⟩
  rw [show f + 4 = f + 3 + 1 from rfl, stableLoop_cons]
  split_ifs with h1 h2
  all_goals first
    | rfl
    | exact stableLoop_three (f + 3) _ v hv (by omega)

/-- Completeness within the check budget: if the polled sequence ends in four
consecutive equal non-zero lengths and the loop has enough checks left, the
loop declares stability. -/
theorem stableLoop_pre_chain :
    ∀ (pre : List Nat) (fuel lastSize count v : Nat), v ≠ 0 →
      pre.length + 4 ≤ fuel →
      stableLoop fuel lastSize count (pre ++ [v, v, v, v]) = true := by
  intro pre
  induction pre with
  | nil =>
    intro fuel lastSize count v hv hf
    exact stableLoop_vvvv fuel lastSize count v hv (by simpa using hf)
  | cons a rest ih =>
    intro fuel lastSize count v hv hf
    obtain ⟨f, rfl⟩ : ∃ f, fuel = f + 1 := ⟨fuel - 1, by simp at hf; omega⟩
    rw [List.cons_append, stableLoop_cons]
    split_ifs with h1 h2
    all_goals first
      | rfl
      | exact ih f a _ v hv (by simp at hf ⊢; omega)

/-- Soundness: whenever the loop declares stability, the polled lengths seen
so far (prefixed by the virtual history `replicate (count+1) lastSize` of the
incoming state) contain four consecutive equal non-zero values. -/
theorem stableLoop_chain :
    ∀ (polls : List Nat) (fuel lastSize count : Nat),
      count < 3 → (count ≠ 0 → lastSize ≠ 0) →
      stableLoop fuel lastSize count polls = true →
      ∃ v, v ≠ 0 ∧ [v, v, v, v] <:+: (List.replicate (count + 1) lastSize ++ polls) := by
  intro polls
  induction polls with
  | nil =>
    intro fuel lastSize count _ _ h3
    cases fuel <;> simp [stableLoop] at h3
  | cons a rest ih =>
    intro fuel lastSize count h1 h2 h3
    cases fuel with
    | zero => simp [stableLoop] at h3
    | succ f =>
      rw [stableLoop_cons] at h3
      by_cases hc : lastSize ≠ 0 ∧ a = lastSize
      · rw [if_pos hc] at h3
        by_cases hbreak : 3 ≤ count + 1
        · have hcount : count = 2 := by omega
          subst hcount
          obtain ⟨hl0, hal⟩ := hc
          refine ⟨lastSize, hl0, [], rest, ?_⟩
          subst hal
          rfl
        · rw [if_neg hbreak] at h3
          obtain ⟨hl0, hal⟩ := hc
          subst hal
          obtain ⟨v, hv, w⟩ := ih f a (count + 1) (by omega) (fun _ => hl0) h3
          refine ⟨v, hv, ?_⟩
          have hrew : List.replicate (count + 1) a ++ a :: rest =
              List.replicate (count + 1 + 1) a ++ rest := by
            rw [List.replicate_succ' (count + 1) a]
            simp
          rw [hrew]
          exact w
      · rw [if_neg hc] at h3
        rw [if_neg (by omega : ¬ 3 ≤ 0)] at h3
        obtain ⟨v, hv, l1, l2, hw⟩ := ih f a 0 (by omega) (by simp) h3
        refine ⟨v, hv, List.replicate (count + 1) lastSize ++ l1, l2, ?_⟩
        have hw' : l1 ++ ([v, v, v, v] ++ l2) = a :: rest := by
          simpa [List.append_assoc] using hw
        simp only [List.append_assoc, hw']

/-- A four-long constant run of a non-zero value inside the polled sequence
prefixed with the initial `lastHTMLSize = 0` lies entirely inside the polled
sequence. -/
theorem chain_of_zero_cons {v : Nat} {polls : List Nat} (hv : v ≠ 0)
    (h : [v, v, v, v] <:+: ((0 : Nat) :: polls)) : [v, v, v, v] <:+: polls := by
  obtain ⟨l1, l2, hw⟩ := h
  cases l1 with
  | nil =>
    simp only [List.nil_append, List.cons_append] at hw
    injection hw with h1 _
    exact absurd h1 hv
  | cons b l1 =>
    simp only [List.cons_append] at hw
    injection hw with _ hrest
    exact ⟨l1, l2, hrest⟩

/-- Whenever `waitTillHTMLStable` declares stability, the polled length
sequence contains four consecutive equal non-zero values (the previous poll
plus three unchanged polls that drive the counter to 3). -/
theorem waitTillHTMLStable_chain {timeout : Nat} {polls : List Nat}
    (h : waitTillHTMLStable timeout polls = true) :
    ∃ v, v ≠ 0 ∧ [v, v, v, v] <:+: polls := by
  obtain ⟨v, hv, w⟩ :=
    stableLoop_chain polls (timeout / 500) 0 0 (by omega) (fun hh => absurd rfl hh) h
  exact ⟨v, hv, chain_of_zero_cons hv (by simpa using w)⟩

/-- C1, counterexample: fed the poll-length sequence `[100, 250, 250, 250]`
(the loop ending there), `waitTillHTMLStable` does NOT declare stability — the
counter only reaches 2, because polls 3 and 4 are the only polls whose
non-zero length is unchanged from their previous poll. -/
theorem C1_counterexample :
    waitTillHTMLStable 5000 [100, 250, 250, 250] = false := by decide

/-- C1, amended: the stabilization helper counts consecutive polls whose
serialized-content length is non-zero and unchanged from the previous poll,
resetting the counter on any change, and declares stability exactly when the
counter reaches 3 — equivalently, when four consecutive polls (within the 10
checks of the default 5 s timeout) return the same non-zero length.  In
particular it does NOT declare stability for the poll sequence
`[100, 250, 250, 250]` (the counter only reaches 2); it declares stability
for `[100, 250, 250, 250, 250]`; and it does not for
`[100, 250, 250, 250, 400]`, where the final change resets the counter. -/
theorem C1_waitTillHTMLStable_stability :
    (∀ (timeout : Nat) (polls : List Nat), waitTillHTMLStable timeout polls = true →
      ∃ v, v ≠ 0 ∧ [v, v, v, v] <:+: polls) ∧
    (∀ (pre : List Nat) (v : Nat), v ≠ 0 → pre.length + 4 ≤ 10 →
      waitTillHTMLStable 5000 (pre ++ [v, v, v, v]) = true) ∧
    waitTillHTMLStable 5000 [100, 250, 250, 250] = false ∧
    waitTillHTMLStable 5000 [100, 250, 250, 250, 250] = true ∧
    waitTillHTMLStable 5000 [100, 250, 250, 250, 400] = false := by
  refine ⟨fun _ _ h => waitTillHTMLStable_chain h,
    fun pre v hv hlen => ?_, by decide, by decide, by decide⟩
  exact stableLoop_pre_chain pre (5000 / 500) 0 0 v hv (by omega)

/-- Witness instantiating `C1_waitTillHTMLStable_stability`: the sequence
`[100] ++ [250, 250, 250, 250]` is declared stable, and stability of
`[100, 250, 250, 250, 250]` yields a four-long constant non-zero run. -/
theorem C1_waitTillHTMLStable_stability_witness :
    (250 : Nat) ≠ 0 ∧ [(100 : Nat)].length + 4 ≤ 10 ∧
    waitTillHTMLStable 5000 ([100] ++ [250, 250, 250, 250]) = true ∧
    (∃ v, v ≠ 0 ∧ [v, v, v, v] <:+: [100, 250, 250, 250, 250]) :=
  ⟨by decide, by decide,
    C1_waitTillHTMLStable_stability.2.1 [100] 250 (by decide) (by decide),
    C1_waitTillHTMLStable_stability.1 5000 [100, 250, 250, 250, 250] (by decide)⟩

/-! ## Claim C9: `close()` never fails and is idempotent -/

/-- C9: for every session state and regardless of whether the underlying
`disconnect()`/`close()` call rejects, `closeBrowser` returns the empty
result rather than an error, and doing it again does the same (the session
fields are left untouched, so the second call sees the same state). -/
theorem C9_close_idempotent :
    ∀ (s : Session) (f1 f2 : Bool),
      (closeBrowser s f1).result = .ok {} ∧
      (closeBrowser (closeBrowser s f1).session f2).result = .ok {} ∧
      (closeBrowser (closeBrowser s f1).session f2).session = (closeBrowser s f1).session :=
  fun _ _ _ => ⟨rfl, rfl, rfl⟩

/-! ## Claim C10: the debugging port is sticky session state -/

/-- `launchBrowser` overwrites `browserPort` exactly when a truthy port is
supplied. -/
theorem launchBrowser_browserPort (s : Session) (interactive : Bool) (port : Option String)
    (o : LaunchOracle) :
    (launchBrowser s interactive port o).session.browserPort =
      (suppliedPort port).getD s.browserPort := by
  obtain ⟨fr, ce, cf⟩ := o
  unfold launchBrowser
  rcases port with - | p <;>
    cases interactive <;>
      rcases fr with m | - | ws <;>
        rcases ce with - | m2 <;>
          first
            | rfl
            | (by_cases hp : p = "" <;> simp [suppliedPort, hp])

/-- An interactive `launchBrowser` call that omits the port fetches the
debugging metadata from the session's current `browserPort`. -/
theorem launchBrowser_fetchVersion (s : Session) (o : LaunchOracle) :
    BrowserEvent.fetchVersion s.browserPort ∈ (launchBrowser s true none o).events := by
  obtain ⟨fr, ce, cf⟩ := o
  unfold launchBrowser
  cases hb : s.browser <;>
    rcases fr with m | - | ws <;>
      rcases ce with - | m2 <;>
        simp [closeBrowser, hb]

/-- The fold form of the stickiness: `browserPort` after a launch sequence is
the port supplied by the most recent call that supplied one, else the port
the session started with. -/
theorem runLaunches_browserPort :
    ∀ (calls : List (Bool × Option String × LaunchOracle)) (s : Session),
      (runLaunches s calls).browserPort = (lastSuppliedPort calls).getD s.browserPort := by
  intro calls
  induction calls with
  | nil => intro s; rfl
  | cons c rest ih =>
    intro s
    rw [runLaunches, ih, lastSuppliedPort]
    cases h : lastSuppliedPort rest with
    | some q => simp
    | none => simp [launchBrowser_browserPort]

/-- C10: starting from a fresh session (default port `"7333"`), after any
sequence of `launchBrowser` calls the session's port is the one supplied by
the most recent call that supplied one, and `"7333"` only when no call ever
supplied one; an interactive launch that omits the port fetches the metadata
from exactly that sticky port. -/
theorem C10_sticky_port :
    Session.init.browserPort = "7333" ∧
    (∀ calls : List (Bool × Option String × LaunchOracle),
      (runLaunches Session.init calls).browserPort = (lastSuppliedPort calls).getD "7333") ∧
    (∀ (s : Session) (o : LaunchOracle),
      BrowserEvent.fetchVersion s.browserPort ∈ (launchBrowser s true none o).events) ∧
    (∀ (calls : List (Bool × Option String × LaunchOracle)) (o : LaunchOracle),
      BrowserEvent.fetchVersion ((lastSuppliedPort calls).getD "7333") ∈
        (launchBrowser (runLaunches Session.init calls) true none o).events) := by
  refine ⟨rfl, fun calls => runLaunches_browserPort calls Session.init,
    fun s o => launchBrowser_fetchVersion s o, fun calls o => ?_⟩
  have h := launchBrowser_fetchVersion (runLaunches Session.init calls) o
  rwa [runLaunches_browserPort calls Session.init] at h

/-! ## Claim C7: screenshot format fallback -/

/-- C7: `getCurrentScreenshot` attempts the lossy `webp` format first; the
lossless `png` format is attempted exactly when the `webp` capture rejects;
when both reject it returns `undefined`, in which case `doAction` throws
`"Failed to take screenshot."` so that no result record (logs, URL, cursor
position) reaches the caller. -/
theorem C7_screenshot_fallback :
    (∀ (p : PageHandle) (o : ScreenshotOracle) (b : String), o.webp = .ok b →
      getCurrentScreenshot (some p) o =
        (some ("data:image/webp;base64," ++ b), [ShotType.webp])) ∧
    (∀ (p : PageHandle) (o : ScreenshotOracle) (e b : String),
      o.webp = .error e → o.png = .ok b →
      getCurrentScreenshot (some p) o =
        (some ("data:image/png;base64," ++ b), [ShotType.webp, ShotType.png])) ∧
    (∀ (p : PageHandle) (o : ScreenshotOracle) (e e' : String),
      o.webp = .error e → o.png = .error e' →
      getCurrentScreenshot (some p) o = (none, [ShotType.webp, ShotType.png])) ∧
    (∀ (s : Session) (p : PageHandle) (o : DoActionOracle) (effect : Effect) (e e' : String),
      s.page = some p → o.shot.webp = .error e → o.shot.png = .error e' →
      (doAction s o effect).result = .error (.error screenshotFailedMsg)) := by
  refine ⟨?_, ?_, ?_, ?_⟩
  · intro p o b h
    simp [getCurrentScreenshot, h]
  · intro p o e b h1 h2
    simp [getCurrentScreenshot, h1, h2]
  · intro p o e e' h1 h2
    simp [getCurrentScreenshot, h1, h2]
  · intro s p o effect e e' hp h1 h2
    simp [doAction, hp, getCurrentScreenshot, h1, h2]

/-- Witness instantiating `C7_screenshot_fallback` with both formats
rejecting: the capture is `undefined` after attempting `webp` then `png`, and
the surrounding `doAction` throws. -/
theorem C7_screenshot_fallback_witness :
    ((⟨.error "boom", .error "bust"⟩ : ScreenshotOracle).webp = .error "boom") ∧
    getCurrentScreenshot (some newPage) ⟨.error "boom", .error "bust"⟩ =
      (none, [ShotType.webp, ShotType.png]) ∧
    (doAction { Session.init with page := some newPage }
        ⟨[], ⟨.error "boom", .error "bust"⟩⟩
        (fun s0 page => ⟨s0, page, none, []⟩)).result =
      .error (.error screenshotFailedMsg) :=
  ⟨rfl,
    C7_screenshot_fallback.2.2.1 newPage ⟨.error "boom", .error "bust"⟩ "boom" "bust" rfl rfl,
    C7_screenshot_fallback.2.2.2 { Session.init with page := some newPage } newPage
      ⟨[], ⟨.error "boom", .error "bust"⟩⟩ (fun s0 page => ⟨s0, page, none, []⟩)
      "boom" "bust" rfl rfl rfl⟩

/-! ## Claim C4: the implicit close on re-launch uses the NEW call's mode

`launchBrowser` overwrites `this.isInteractive` with the incoming argument
*before* running the implicit `closeBrowser()`, and `closeBrowser` branches
on `this.isInteractive`; so the prior session is torn down according to the
mode requested by the new call, not its own. -/

/-- C4, counterexample: with a previously Launched (non-interactive) browser,
a new `launchBrowser(interactive = true, port = "9222")` call issues
`disconnect()` — not `close()` — against the owned process, because
`isInteractive` was already overwritten when the implicit close ran.  The
owned process is therefore not terminated. -/
theorem C4_counterexample :
    launchedSession.browser = some ⟨.launched⟩ ∧
    launchedSession.isInteractive = false ∧
    (launchBrowser launchedSession true (some "9222") okAttachOracle).events.head? =
      some BrowserEvent.disconnectCalled ∧
    BrowserEvent.closeCalled ∉
      (launchBrowser launchedSession true (some "9222") okAttachOracle).events := by
  decide

/-- C4, amended: a `launch` call made while a session is already open closes
the prior session first, but according to the mode requested by the NEW call
(`isInteractive` is overwritten before the implicit close runs): the first
call issued to the browser is `disconnect()` when the new call is
interactive and `close()` otherwise, regardless of the prior session's own
mode. -/
theorem C4_close_uses_new_mode :
    ∀ (s : Session) (interactive : Bool) (port : Option String) (o : LaunchOracle)
      (b : BrowserHandle), s.browser = some b →
      (launchBrowser s interactive port o).events.head? =
        some (if interactive then BrowserEvent.disconnectCalled else BrowserEvent.closeCalled) := by
  intro s interactive port o b hb
  obtain ⟨fr, ce, cf⟩ := o
  unfold launchBrowser
  rcases port with - | p
  · cases interactive <;>
      rcases fr with m | - | ws <;>
        rcases ce with - | m2 <;>
          simp [closeBrowser, hb]
  · cases interactive <;>
      rcases fr with m | - | ws <;>
        rcases ce with - | m2 <;>
          by_cases hp : p = "" <;>
            simp [closeBrowser, hb, hp]

/-- Witness instantiating `C4_close_uses_new_mode` on a previously launched
session re-launched in interactive mode. -/
theorem C4_close_uses_new_mode_witness :
    launchedSession.browser = some ⟨BrowserKind.launched⟩ ∧
    (launchBrowser launchedSession true (some "9222") okAttachOracle).events.head? =
      some (if true then BrowserEvent.disconnectCalled else BrowserEvent.closeCalled) :=
  ⟨by decide,
    C4_close_uses_new_mode launchedSession true (some "9222") okAttachOracle
      ⟨BrowserKind.launched⟩ (by decide)⟩

/-! ## Claim C8: attach-mode failure message -/

/-- `(s ++ t).toList` distributes over string append. -/
theorem toListAppend (s t : String) : (s ++ t).toList = s.toList ++ t.toList := rfl

/-- C8, counterexample: `launch(interactive = true, port = "9222")` where the
metadata fetch itself fails throws a message that does not mention the port
`9222` anywhere — the remediation text hard-codes port 7333. -/
theorem C8_counterexample :
    (launchBrowser Session.init true (some "9222") fetchFailOracle).result =
      .error (.error (connectFailedMsg "fetch failed")) ∧
    ¬ ("9222".toList <:+: (connectFailedMsg "fetch failed").toList) := by
  constructor
  · decide
  · decide

/-- C8, amended: a failed interactive launch throws an error whose message
wraps the underlying error's message and appends a fixed remediation naming
port 7333 — the remediation names 7333 whatever the wrapped message is.
When the metadata document omits the control endpoint, the inner message
names the port that was used, so the thrown message mentions that port (in
particular `"9222"` when port `"9222"` was supplied); when the fetch itself
fails, the thrown message contains only the underlying fetch message plus
the fixed 7333 remediation, so the supplied port is not named in general. -/
theorem C8_connection_error_message :
    (∀ (s : Session) (p : String) (o : LaunchOracle), p ≠ "" →
      o.fetchResult = .ok none →
      (launchBrowser s true (some p) o).result =
        .error (.error (connectFailedMsg (missingWsEndpointMsg p))) ∧
      p.toList <:+: (connectFailedMsg (missingWsEndpointMsg p)).toList) ∧
    (∀ (s : Session) (p : String) (o : LaunchOracle) (m : String), p ≠ "" →
      o.fetchResult = .error m →
      (launchBrowser s true (some p) o).result = .error (.error (connectFailedMsg m))) ∧
    (∀ m : String, "7333".toList <:+: (connectFailedMsg m).toList) ∧
    "9222".toList <:+: (connectFailedMsg (missingWsEndpointMsg "9222")).toList := by
  refine ⟨fun s p o hp hfr => ⟨?_, ?_⟩, fun s p o m hp hfr => ?_, fun m => ?_, by decide⟩
  · obtain ⟨fr, ce, cf⟩ := o
    simp only at hfr
    subst hfr
    unfold launchBrowser
    simp [hp]
  · refine ⟨("BrowserSession.ts :: launchBrowser :: Failed to connect to browser: "
        ++ "BrowserSession.ts :: launchBrowser :: Could not get webSocketDebuggerUrl from Chrome debugging API, port: ").toList,
      (", make sure you have a running browser with --remote-debugging-port=7333").toList, ?_⟩
    simp [connectFailedMsg, missingWsEndpointMsg, toListAppend, List.append_assoc]
  · obtain ⟨fr, ce, cf⟩ := o
    simp only at hfr
    subst hfr
    unfold launchBrowser
    simp [hp]
  · obtain ⟨u, hu⟩ : "7333".toList <:+
        (", make sure you have a running browser with --remote-debugging-port=7333").toList := by
      decide
    refine ⟨("BrowserSession.ts :: launchBrowser :: Failed to connect to browser: " ++ m).toList
        ++ u, [], ?_⟩
    simp only [connectFailedMsg, toListAppend, List.append_assoc, List.append_nil]
    simpa using hu

/-- Witness instantiating `C8_connection_error_message` at port `"9222"`:
the omitted-endpoint message names the port, the fetch-failure message is
the wrapped fetch error, and that wrapped message still names 7333. -/
theorem C8_connection_error_message_witness :
    ("9222" : String) ≠ "" ∧
    omitsWsOracle.fetchResult = .ok none ∧
    fetchFailOracle.fetchResult = .error "fetch failed" ∧
    ((launchBrowser Session.init true (some "9222") omitsWsOracle).result =
        .error (.error (connectFailedMsg (missingWsEndpointMsg "9222"))) ∧
      "9222".toList <:+: (connectFailedMsg (missingWsEndpointMsg "9222")).toList) ∧
    (launchBrowser Session.init true (some "9222") fetchFailOracle).result =
      .error (.error (connectFailedMsg "fetch failed")) ∧
    "7333".toList <:+: (connectFailedMsg "fetch failed").toList :=
  ⟨by decide, rfl, rfl,
    C8_connection_error_message.1 Session.init "9222" omitsWsOracle (by decide) rfl,
    C8_connection_error_message.2.1 Session.init "9222" fetchFailOracle "fetch failed"
      (by decide) rfl,
    C8_connection_error_message.2.2.1 "fetch failed"⟩

/-! ## Claim C5: `click` performs no coordinate validation

`click` runs `coordinate.split(",").map(Number)` and uses the two components
as-is; there is no `InvalidCoordinate` error anywhere in the source, and the
pointer click is dispatched even when the components are `NaN`. -/

/-- C5, counterexample: `click("foo,bar")` — a coordinate that does not parse
as two comma-separated integers — does not fail with any error: the call
returns an ordinary result record, and a pointer click is dispatched (at
`(NaN, NaN)`). -/
theorem C5_counterexample :
    (∃ r, (click launchedSession "foo,bar" plainClickOracle).result = .ok r) ∧
    PageOp.mouseClick (.num .nan) (.num .nan) ∈
      (click launchedSession "foo,bar" plainClickOracle).trace :=
  ⟨⟨_, rfl⟩, by decide⟩

/-- C5, amended: `click` never validates its coordinate: for every coordinate
string (parseable or not) the pointer click is dispatched with the
`Number`-converted components, and the only errors a `click` call can raise
are the no-active-page error and the screenshot failure — there is no
`InvalidCoordinate` failure. -/
theorem C5_click_no_validation :
    ∀ (s : Session) (p : PageHandle) (coordinate : String) (o : ClickOracle),
      s.page = some p →
      (PageOp.mouseClick (parseClickArgs coordinate).1 (parseClickArgs coordinate).2 ∈
        (click s coordinate o).trace) ∧
      (∀ e, (click s coordinate o).result = .error e →
        e = .error screenshotFailedMsg) := by
  intro s p coordinate o hp
  obtain ⟨mce, hna, cs, ⟨ev, ⟨w, pn⟩⟩⟩ := o
  rcases hargs : parseClickArgs coordinate with ⟨x, y⟩
  unfold click doAction
  rcases mce with - | m <;>
    cases hna <;>
      rcases w with e1 | b1 <;>
        rcases pn with e2 | b2 <;>
          simp [hp, hargs, getCurrentScreenshot]

/-- Witness instantiating `C5_click_no_validation` at the unparseable
coordinate `"foo,bar"`. -/
theorem C5_click_no_validation_witness :
    launchedSession.page = some newPage ∧
    (PageOp.mouseClick (parseClickArgs "foo,bar").1 (parseClickArgs "foo,bar").2 ∈
      (click launchedSession "foo,bar" plainClickOracle).trace) ∧
    (∀ e, (click launchedSession "foo,bar" plainClickOracle).result = .error e →
      e = .error screenshotFailedMsg) :=
  ⟨by decide,
    (C5_click_no_validation launchedSession newPage "foo,bar" plainClickOracle (by decide)).1,
    (C5_click_no_validation launchedSession newPage "foo,bar" plainClickOracle (by decide)).2⟩

/-! ## Claim C6: the cursor position update in `click`

`this.currentMousePosition = coordinate` runs immediately after
`await page.mouse.click(x, y)`: it does not depend on what the click hit, but
it is skipped when the pointer dispatch itself rejects (the assignment is
never reached; the error is demoted to a log line by `doAction`). -/

/-- C6, counterexample: a `click` with the syntactically valid coordinate
`"100,200"` whose pointer dispatch rejects: the call still returns an
ordinary result (the error is demoted to a log line), but the stored cursor
position is NOT updated to the parsed coordinate. -/
theorem C6_counterexample :
    parseClickArgs "100,200" = (.num (.int 100), .num (.int 200)) ∧
    (click launchedSession "100,200" failMouseOracle).session.currentMousePosition ≠
      some "100,200" ∧
    (∃ r, (click launchedSession "100,200" failMouseOracle).result = .ok r) :=
  ⟨by decide, by decide, ⟨_, rfl⟩⟩

/-- C6, amended: after a `click` on a session with an active page, the stored
cursor position equals the raw coordinate string exactly when the pointer
dispatch resolved (for a canonically written valid coordinate the raw string
is the parsed coordinate); the update does not depend on whether the click
hit an interactive element or triggered navigation, but when the pointer
dispatch itself rejects the previous cursor position is kept. -/
theorem C6_cursor_update :
    ∀ (s : Session) (p : PageHandle) (coordinate : String) (o : ClickOracle),
      s.page = some p →
      (click s coordinate o).session.currentMousePosition =
        (match o.mouseClickError with
         | none => some coordinate
         | some _ => s.currentMousePosition) := by
  intro s p coordinate o hp
  obtain ⟨mce, hna, cs, ⟨ev, ⟨w, pn⟩⟩⟩ := o
  rcases hargs : parseClickArgs coordinate with ⟨x, y⟩
  unfold click doAction
  rcases mce with - | m <;>
    cases hna <;>
      rcases w with e1 | b1 <;>
        rcases pn with e2 | b2 <;>
          simp [hp, hargs, getCurrentScreenshot]

/-- Witness instantiating `C6_cursor_update`: a successful click at
`"100,200"` stores `"100,200"`. -/
theorem C6_cursor_update_witness :
    launchedSession.page = some newPage ∧
    (click launchedSession "100,200" plainClickOracle).session.currentMousePosition =
      (match plainClickOracle.mouseClickError with
       | none => some "100,200"
       | some _ => launchedSession.currentMousePosition) :=
  ⟨by decide, C6_cursor_update launchedSession newPage "100,200" plainClickOracle (by decide)⟩

/-! ## Claim C3: listener cleanup in `doAction`

The `page.off("console", ...)` / `page.off("pageerror", ...)` calls sit
*after* the `throw new Error("Failed to take screenshot.")`, and there is no
`try`/`finally`; so on the screenshot-failure exit path the transient
listeners are never unregistered. -/

/-- C3, counterexample: a `type` action during which both screenshot captures
fail: the call throws `"Failed to take screenshot."`, and the console and
page-error listeners registered at the start are NOT unregistered — they
survive into any later action. -/
theorem C3_counterexample :
    (type launchedSession "hello" failShotOracle).result =
      .error (.error screenshotFailedMsg) ∧
    (type launchedSession "hello" failShotOracle).trace.count PageOp.onConsole = 1 ∧
    (type launchedSession "hello" failShotOracle).trace.count PageOp.offConsole = 0 ∧
    (type launchedSession "hello" failShotOracle).trace.count PageOp.onPageError = 1 ∧
    (type launchedSession "hello" failShotOracle).trace.count PageOp.offPageError = 0 := by
  decide

/-- C3, amended: for every `doAction` call whose effect does not itself touch
the console/page-error listeners (none of the five actions does), the
listeners registered at the start are unregistered exactly on the successful
exit path, before the result is returned; on the exit path where both
screenshot formats fail, the call throws before the `page.off` calls and
both listeners survive. -/
theorem C3_listener_scope :
    ∀ (s : Session) (p : PageHandle) (o : DoActionOracle) (effect : Effect),
      s.page = some p →
      (∀ s0 p0, (effect s0 p0).trace.count PageOp.onConsole = 0 ∧
        (effect s0 p0).trace.count PageOp.offConsole = 0 ∧
        (effect s0 p0).trace.count PageOp.onPageError = 0 ∧
        (effect s0 p0).trace.count PageOp.offPageError = 0) →
      ((∃ r, (doAction s o effect).result = .ok r) →
        (doAction s o effect).trace.count PageOp.onConsole = 1 ∧
        (doAction s o effect).trace.count PageOp.offConsole = 1 ∧
        (doAction s o effect).trace.count PageOp.onPageError = 1 ∧
        (doAction s o effect).trace.count PageOp.offPageError = 1) ∧
      ((doAction s o effect).result = .error (.error screenshotFailedMsg) →
        (doAction s o effect).trace.count PageOp.onConsole = 1 ∧
        (doAction s o effect).trace.count PageOp.offConsole = 0 ∧
        (doAction s o effect).trace.count PageOp.onPageError = 1 ∧
        (doAction s o effect).trace.count PageOp.offPageError = 0) := by
  intro s p o effect hp heff
  obtain ⟨ev, ⟨w, pn⟩⟩ := o
  have h := heff s p
  unfold doAction
  rcases w with e1 | b1 <;>
    rcases pn with e2 | b2 <;>
      simp [hp, getCurrentScreenshot, List.count_append, List.count_cons,
        h.1, h.2.1, h.2.2.1, h.2.2.2]

/-- Witness instantiating `C3_listener_scope` with the `type` effect: on a
successful screenshot the on/off counts balance. -/
theorem C3_listener_scope_witness :
    launchedSession.page = some newPage ∧
    (∀ s0 p0,
      ((fun (s1 : Session) (p1 : PageHandle) =>
          (⟨s1, p1, none, [PageOp.keyboardType "hi"]⟩ : EffectOut)) s0 p0).trace.count
            PageOp.onConsole = 0 ∧
      ((fun (s1 : Session) (p1 : PageHandle) =>
          (⟨s1, p1, none, [PageOp.keyboardType "hi"]⟩ : EffectOut)) s0 p0).trace.count
            PageOp.offConsole = 0 ∧
      ((fun (s1 : Session) (p1 : PageHandle) =>
          (⟨s1, p1, none, [PageOp.keyboardType "hi"]⟩ : EffectOut)) s0 p0).trace.count
            PageOp.onPageError = 0 ∧
      ((fun (s1 : Session) (p1 : PageHandle) =>
          (⟨s1, p1, none, [PageOp.keyboardType "hi"]⟩ : EffectOut)) s0 p0).trace.count
            PageOp.offPageError = 0) ∧
    ((∃ r, (doAction launchedSession quietOkOracle
        (fun (s1 : Session) (p1 : PageHandle) =>
          (⟨s1, p1, none, [PageOp.keyboardType "hi"]⟩ : EffectOut))).result = .ok r) →
      (doAction launchedSession quietOkOracle
        (fun (s1 : Session) (p1 : PageHandle) =>
          (⟨s1, p1, none, [PageOp.keyboardType "hi"]⟩ : EffectOut))).trace.count
            PageOp.onConsole = 1 ∧
      (doAction launchedSession quietOkOracle
        (fun (s1 : Session) (p1 : PageHandle) =>
          (⟨s1, p1, none, [PageOp.keyboardType "hi"]⟩ : EffectOut))).trace.count
            PageOp.offConsole = 1 ∧
      (doAction launchedSession quietOkOracle
        (fun (s1 : Session) (p1 : PageHandle) =>
          (⟨s1, p1, none, [PageOp.keyboardType "hi"]⟩ : EffectOut))).trace.count
            PageOp.onPageError = 1 ∧
      (doAction launchedSession quietOkOracle
        (fun (s1 : Session) (p1 : PageHandle) =>
          (⟨s1, p1, none, [PageOp.keyboardType "hi"]⟩ : EffectOut))).trace.count
            PageOp.offPageError = 1) :=
  ⟨by decide, fun _ _ => ⟨rfl, rfl, rfl, rfl⟩,
    (C3_listener_scope launchedSession newPage quietOkOracle
      (fun (s1 : Session) (p1 : PageHandle) =>
        (⟨s1, p1, none, [PageOp.keyboardType "hi"]⟩ : EffectOut))
      (by decide) (fun _ _ => ⟨rfl, rfl, rfl, rfl⟩)).1⟩

/-! ## Claim C2: actions issued after `close()`

`closeBrowser` never assigns `this.page` (or `this.browser`, or
`this.currentMousePosition`): the whole session state survives `close`
unchanged.  So an action issued after `close` does NOT hit the
no-active-page check — that check can only ever fire before the first
launch, contradicting its own message (which names an out-of-band close as
the expected cause) and the spec's data model (`activePage` absent after
close).  Against the actually closed browser the action proceeds on the
dead page and fails as a screenshot failure instead. -/

/-- C2: the code bug, evaluated at the failing input `launch(false)` then
`close()` then `click("100,200")`: after `close` the session still holds its
page (indeed the whole session state is unchanged), and the subsequent click
fails with `"Failed to take screenshot."` — not with the no-active-page
error the claim requires.  The no-active-page branch requires `page = none`,
which holds only before the first launch. -/
theorem C2_page_survives_close :
    (closeBrowser launchedSession false).session.page = some newPage ∧
    (closeBrowser launchedSession false).session = launchedSession ∧
    (click (closeBrowser launchedSession false).session "100,200"
        deadPageClickOracle).result = .error (.error screenshotFailedMsg) ∧
    (click (closeBrowser launchedSession false).session "100,200"
        deadPageClickOracle).result ≠ .error (.error noActivePageMsg) ∧
    Session.init.page = none := by
  decide

end BrowserSession
